import Mathlib

/-!
Shallow embedding of `gerenciador_tarefas.py`: a console task manager backed
by one relational table.  Machine state is modelled explicitly:

* `Servidor` is the database server's view of the `tarefas` table (an ordered
  list of rows plus the auto-increment counter);
* `BancoDeDados` mirrors the gateway object (`self.conexao`, `self.cursor`);
* SQL statements issued by the manager are reified as `Comando` (mutating)
  and `Consulta` (read-only) values with their semantics given by
  `Servidor.aplicar` and `Servidor.consultar`;
* `input()` is modelled by consuming a list of strings, `datetime.now()` by an
  abstract `Nat` tick, `logging` by a list of levelled messages, and Python
  exceptions (`EOFError` on exhausted input, `AttributeError` from calling
  `.lower()` on `None`) by an `Option Excecao` field of the outcome.
-/

/-- Logging levels of the Python `logging` module. -/
inductive Nivel
  | debug
  | info
  | warning
  | error
  | critical
deriving DecidableEq

/-- Numeric value of each level, as in the `logging` module. -/
def Nivel.valor : Nivel → Nat
  | .debug => 10
  | .info => 20
  | .warning => 30
  | .error => 40
  | .critical => 50

/-- One emitted log message. -/
structure LogMsg where
  nivel : Nivel
  texto : String
deriving DecidableEq

/-- Source line 11, `logging.basicConfig(level=logging.WARNING, ...)`:
the process-wide threshold is WARNING. -/
def nivelConfigurado : Nat := Nivel.valor Nivel.warning

/-- A message is visible on the console iff its level reaches the configured
threshold. -/
def LogMsg.visivel (m : LogMsg) : Bool :=
  decide (nivelConfigurado ≤ m.nivel.valor)

/-- Python's `str.lower` restricted to the alphabet this program compares
(ASCII letters and the Latin-1 accented block, which contains `Í`/`í`):
uppercase code points 65–90 and 192–222 (except `×`, 215) map 32 places up. -/
def pyToLower (c : Char) : Char :=
  if (65 ≤ c.toNat ∧ c.toNat ≤ 90) ∨ (192 ≤ c.toNat ∧ c.toNat ≤ 222 ∧ c.toNat ≠ 215) then
    Char.ofNat (c.toNat + 32)
  else c

/-- Python `s.lower()` on the program's strings. -/
def pyLower (s : String) : String :=
  ⟨s.data.map pyToLower⟩

/-- Python `s.lower() == "concluída"`: the case-insensitive test at the completion
boundary. -/
def ehStringConcluida (s : String) : Bool :=
  pyLower s == "concluída"

/-- One row of the `tarefas` table.  `id` is the auto-increment primary key;
`titulo` is NOT NULL in the DDL; every other column is nullable.  Timestamps
are abstract `Nat` ticks. -/
structure Linha where
  id : Nat
  titulo : String
  descricao : Option String
  responsavel : Option String
  status : Option String
  data_criacao : Option Nat
  data_conclusao : Option Nat
deriving DecidableEq

/-- Python `str(t_id[0]) == id_tarefa`: the manager compares the entered ID string
against the stringified stored ID, and the SQL `WHERE id=%s` clauses are
keyed by the same (decimal) string. -/
def Linha.corresponde (l : Linha) (idTarefa : String) : Bool :=
  toString l.id == idTarefa

/-- A row's status is "concluída", compared case-insensitively; a null status
counts as not concluída. -/
def Linha.concluida (l : Linha) : Bool :=
  match l.status with
  | none => false
  | some s => ehStringConcluida s

/-- The server's state: the `tarefas` table in storage order plus the next
auto-increment key. -/
structure Servidor where
  tarefas : List Linha
  proximoId : Nat
deriving DecidableEq

/-- The invariant of claim C2: completion timestamp is non-null iff the
current status is `Concluída` (case-insensitively), for every stored row. -/
def Servidor.invariante (srv : Servidor) : Bool :=
  srv.tarefas.all (fun l => l.data_conclusao.isSome == l.concluida)

/-- The mutating statements the manager issues (`INSERT`, `UPDATE`, `DELETE`
with their bound parameters).  The update statement carries exactly the five
columns the source rewrites — `titulo`, `descricao`, `responsavel`, `status`,
`data_conclusao` — keyed by the entered ID string; `data_criacao` and `id`
are absent from it, as in the source SQL. -/
inductive Comando
  | inserir (titulo descricao responsavel status : String)
      (dataCriacao : Nat) (dataConclusao : Option Nat)
  | atualizar (idTarefa : String) (titulo : String)
      (descricao responsavel : Option String) (status : String)
      (dataConclusao : Option Nat)
  | excluir (idTarefa : String)
deriving DecidableEq

/-- Semantics of the mutating statements on the server state. -/
def Servidor.aplicar (srv : Servidor) : Comando → Servidor
  | .inserir t d r s dcri dcon =>
      { tarefas := srv.tarefas ++
          [{ id := srv.proximoId, titulo := t, descricao := some d,
             responsavel := some r, status := some s,
             data_criacao := some dcri, data_conclusao := dcon }],
        proximoId := srv.proximoId + 1 }
  | .atualizar idT t d r s dcon =>
      { srv with tarefas := srv.tarefas.map (fun l =>
          if l.corresponde idT then
            { l with titulo := t, descricao := d, responsavel := r,
                     status := some s, data_conclusao := dcon }
          else l) }
  | .excluir idT =>
      { srv with tarefas := srv.tarefas.filter (fun l => !(l.corresponde idT)) }

/-- The read-only queries the manager issues. -/
inductive Consulta
  | selecionarTudo
  | selecionarIds
  | selecionarCampos (idTarefa : String)
deriving DecidableEq

/-- One fetched tuple, shaped by the query that produced it: `SELECT *` yields
full rows, `SELECT id` yields bare IDs, and the update flow's
`SELECT titulo, descricao, responsavel, status, data_conclusao ... WHERE id=%s`
yields five-column tuples. -/
inductive LinhaResultado
  | completa (l : Linha)
  | soId (id : Nat)
  | campos (titulo : String) (descricao responsavel status : Option String)
      (dataConclusao : Option Nat)
deriving DecidableEq

/-- Semantics of the read-only queries: `fetchall()` returns the matching
tuples in storage order. -/
def Servidor.consultar (srv : Servidor) : Consulta → List LinhaResultado
  | .selecionarTudo => srv.tarefas.map .completa
  | .selecionarIds => srv.tarefas.map (fun l => .soId l.id)
  | .selecionarCampos idT =>
      (srv.tarefas.filter (fun l => l.corresponde idT)).map
        (fun l => .campos l.titulo l.descricao l.responsavel l.status l.data_conclusao)

/-- The connection object: `is_connected()` is its one observable. -/
structure Conexao where
  conectada : Bool
deriving DecidableEq

/-- The cursor object (present or absent; open or closed once present). -/
structure Cursor where
  aberto : Bool
deriving DecidableEq

/-- The storage gateway (`BancoDeDados`): `self.conexao` and `self.cursor`,
each possibly `None`. -/
structure BancoDeDados where
  conexao : Option Conexao
  cursor : Option Cursor
deriving DecidableEq

/-- Python truthiness of `self.conexao and self.conexao.is_connected()`. -/
def BancoDeDados.conexaoAtiva (bd : BancoDeDados) : Bool :=
  match bd.conexao with
  | none => false
  | some c => c.conectada

/-- Gateway method `executar_comando`: requires a live connection and a cursor, then executes
and commits.  `falha` injects a backend `Error` raised by `execute`/`commit`
(caught and logged in the source).  The first component models the Python
return value: this function returns `None` on every path. -/
def BancoDeDados.executar_comando (bd : BancoDeDados) (srv : Servidor)
    (comando : Comando) (falha : Option String) :
    Option (List LinhaResultado) × Servidor × List LogMsg :=
  if !bd.conexaoAtiva || bd.cursor.isNone then
    (none, srv,
      [⟨.error, "Erro: Não há conexão ativa com o banco de dados para executar o comando."⟩])
  else
    match falha with
    | some e => (none, srv, [⟨.error, "Erro ao executar comando : " ++ e⟩])
    | none => (none, srv.aplicar comando, [])

/-- Gateway method `buscar_dados`: requires a live connection and a cursor; returns
`fetchall()`'s tuples on success and the empty list both when the guard fails
and when the backend raises (`falha`). -/
def BancoDeDados.buscar_dados (bd : BancoDeDados) (srv : Servidor)
    (consulta : Consulta) (falha : Option String) :
    List LinhaResultado × List LogMsg :=
  if !bd.conexaoAtiva || bd.cursor.isNone then
    ([], [⟨.error, "Erro: Não há conexão ativa com o banco de dados para buscar dados."⟩])
  else
    match falha with
    | some e => ([], [⟨.error, "Erro ao buscar os dados : " ++ e⟩])
    | none => (srv.consultar consulta, [⟨.debug, "Dados buscados com sucesso"⟩])

/-- Gateway method `fechar_conexao`: when the connection is live, close the cursor if present
and close the connection (the objects stay referenced, but the connection no
longer reports connected); otherwise log that nothing was to close. -/
def BancoDeDados.fechar_conexao (bd : BancoDeDados) : BancoDeDados × List LogMsg :=
  if bd.conexaoAtiva then
    ({ conexao := some { conectada := false },
       cursor := bd.cursor.map (fun _ => { aberto := false }) },
     [⟨.info, "Conexão com o banco de dados fechada."⟩])
  else
    (bd, [⟨.info, "Nenhuma conexão ativa para fechar."⟩])

/-- The in-memory task value (`Tarefa.__init__`): status defaults to
`Pendente`, creation timestamp to now, completion timestamp to null. -/
structure Tarefa where
  titulo : String
  descricao : String
  responsavel : String
  status : String
  data_criacao : Nat
  data_conclusao : Option Nat
deriving DecidableEq

/-- Constructor call `Tarefa(titulo, descricao, responsavel)` at time `agora`. -/
def Tarefa.init (titulo descricao responsavel : String) (agora : Nat) : Tarefa :=
  { titulo, descricao, responsavel, status := "Pendente",
    data_criacao := agora, data_conclusao := none }

/-- The task manager object: `self.bd` (set to `None` by the constructor when
the connection failed). -/
structure GerenciadorTarefas where
  bd : Option BancoDeDados
deriving DecidableEq

/-- Liveness check `is_bd_ready`: Python truthiness of
`self.bd and self.bd.conexao and self.bd.conexao.is_connected()`. -/
def GerenciadorTarefas.is_bd_ready (g : GerenciadorTarefas) : Bool :=
  match g.bd with
  | none => false
  | some bd => bd.conexaoAtiva

/-- Python exceptions that the modelled operations can raise. -/
inductive Excecao
  | fimDeEntrada
  | atributoNulo
deriving DecidableEq

/-- Outcome of one manager operation: the server state afterwards, the log
messages emitted, the mutating statements issued (calls to
`executar_comando`), the queries issued (calls to `buscar_dados`), and the
exception that escaped, if any. -/
structure Saida where
  servidor : Servidor
  registros : List LogMsg
  comandos : List Comando
  consultas : List Consulta
  excecao : Option Excecao
deriving DecidableEq

/-- The per-operation guard-failure messages, verbatim from the source. -/
def msgGuardaCadastrar : String :=
  "Não é possível cadastrar tarefa. A conexão com o banco de dados não está ativa!"

def msgGuardaExibir : String :=
  "Não é possível exibir tarefas. Conexão com o banco de dados não está ativa."

def msgGuardaAtualizar : String :=
  "Não é possível atualizar tarefa. Conexão com o banco de dados não está ativa."

def msgGuardaExcluir : String :=
  "Não é possível excluir tarefa. Conexão com o banco de dados não está ativa."

/-- Warning logged by the title loop of `cadastrar_tarefa`. -/
def avisoTituloCurto : String :=
  "Título da tarefa deve ser maior que 12 caracteres."

/-- Warning logged when the entered ID matches no fetched ID. -/
def avisoNaoEncontrada (idTarefa : String) : String :=
  "Tarefa com ID " ++ idTarefa ++ " não encontrada."

/-- Rendering of one fetched row by `exibir_tarefas` (seven `logging.info`
lines; a null completion timestamp prints "Não concluída", a null elsewhere
prints Python's "None").  Only `selecionarTudo` rows reach this function, so
the other shapes render nothing. -/
def linhaParaRegistros : LinhaResultado → List LogMsg
  | .completa l =>
      [⟨.info, "ID: " ++ toString l.id⟩,
       ⟨.info, "Título: " ++ l.titulo⟩,
       ⟨.info, "Descrição: " ++ (match l.descricao with | some s => s | none => "None")⟩,
       ⟨.info, "Responsável: " ++ (match l.responsavel with | some s => s | none => "None")⟩,
       ⟨.info, "Status: " ++ (match l.status with | some s => s | none => "None")⟩,
       ⟨.info, "Data da Criação: " ++
          (match l.data_criacao with | some n => toString n | none => "None")⟩,
       ⟨.info, "Data de Conclusão: " ++
          (match l.data_conclusao with | some n => toString n | none => "Não concluída")⟩]
  | _ => []

/-- Manager method `exibir_tarefas`: guard, `SELECT *`, then either the "no tasks" info line
or one block of info lines per row.  Returns the emitted logs and the queries
issued. -/
def GerenciadorTarefas.exibir_tarefas (g : GerenciadorTarefas) (srv : Servidor) :
    List LogMsg × List Consulta :=
  match g.bd with
  | none => ([⟨.error, msgGuardaExibir⟩], [])
  | some bd =>
      if bd.conexaoAtiva then
        let busca := bd.buscar_dados srv .selecionarTudo none
        if busca.1.isEmpty then
          (busca.2 ++ [⟨.info, "Nenhuma tarefa cadastrada."⟩], [.selecionarTudo])
        else
          (busca.2 ++ [⟨.info, "\n --- Lista de Tarefas ---"⟩]
             ++ busca.1.flatMap linhaParaRegistros, [.selecionarTudo])
      else ([⟨.error, msgGuardaExibir⟩], [])

/-- The title loop of `cadastrar_tarefa`: consume inputs until one has at
least 12 characters, logging a warning for each shorter one; `none` when the
input stream runs out (Python `input()` raises `EOFError`). -/
def lerTitulo : List String → List LogMsg × Option (String × List String)
  | [] => ([], none)
  | t :: resto =>
      if 12 ≤ t.length then ([], some (t, resto))
      else
        let r := lerTitulo resto
        (⟨.warning, avisoTituloCurto⟩ :: r.1, r.2)

/-- Body of `cadastrar_tarefa` after the liveness guard passed. -/
def cadastrarComBanco (bd : BancoDeDados) (srv : Servidor)
    (entradas : List String) (agora : Nat) : Saida :=
  match lerTitulo entradas with
  | (regs, none) => ⟨srv, regs, [], [], some .fimDeEntrada⟩
  | (regs, some (titulo, resto)) =>
      match resto with
      | descricao :: responsavel :: _ =>
          let tarefa := Tarefa.init titulo descricao responsavel agora
          let comando := Comando.inserir tarefa.titulo tarefa.descricao
            tarefa.responsavel tarefa.status tarefa.data_criacao tarefa.data_conclusao
          let exec := bd.executar_comando srv comando none
          ⟨exec.2.1, regs ++ exec.2.2 ++ [⟨.info, "Tarefa cadastrada com sucesso!"⟩],
            [comando], [], none⟩
      | _ => ⟨srv, regs, [], [], some .fimDeEntrada⟩

/-- Manager method `cadastrar_tarefa`: liveness guard, title loop, description and owner
prompts, then one parametrized insert of the freshly constructed task. -/
def GerenciadorTarefas.cadastrar_tarefa (g : GerenciadorTarefas) (srv : Servidor)
    (entradas : List String) (agora : Nat) : Saida :=
  match g.bd with
  | none => ⟨srv, [⟨.error, msgGuardaCadastrar⟩], [], [], none⟩
  | some bd =>
      if bd.conexaoAtiva then cadastrarComBanco bd srv entradas agora
      else ⟨srv, [⟨.error, msgGuardaCadastrar⟩], [], [], none⟩

/-- The membership test of the update/delete flows: does one of the fetched
ID tuples stringify to the entered ID? -/
def idCorresponde (idTarefa : String) : LinhaResultado → Bool
  | .soId i => toString i == idTarefa
  | _ => false

/-- The completion-timestamp rule of `atualizar_tarefa` (lines 243–248):
`data_conclusao = data_conclusao_atual`, overwritten with now when the new
status is concluída and the old was not (a null old status counting as not),
and with null when the new status is not concluída and the old was. -/
def calcularDataConclusao (statusAtual : Option String) (novoStatus : String)
    (dataConclusaoAtual : Option Nat) (agora : Nat) : Option Nat :=
  if ehStringConcluida novoStatus
      && (statusAtual.isNone || !ehStringConcluida (statusAtual.getD "")) then
    some agora
  else if !ehStringConcluida novoStatus
      && (!statusAtual.isNone && ehStringConcluida (statusAtual.getD "")) then
    none
  else
    dataConclusaoAtual

/-- Steps (e)–(g) of `atualizar_tarefa`: the four field prompts (empty input
keeps the current value), the completion-timestamp rule, and the single
update statement.  When the kept status is null, `novo_status.lower()`
raises `AttributeError` before any statement is issued. -/
def atualizarCampos (bd : BancoDeDados) (srv : Servidor) (idTarefa : String)
    (resto : List String) (tituloAtual : String)
    (descricaoAtual responsavelAtual statusAtual : Option String)
    (dataConclusaoAtual : Option Nat) (regs2 : List LogMsg)
    (cons1 : List Consulta) (agora : Nat) : Saida :=
  match resto with
  | entradaTitulo :: entradaDescricao :: entradaResponsavel :: entradaStatus :: _ =>
      let novoTitulo := if entradaTitulo == "" then tituloAtual else entradaTitulo
      let novaDescricao := if entradaDescricao == "" then descricaoAtual else some entradaDescricao
      let novoResponsavel :=
        if entradaResponsavel == "" then responsavelAtual else some entradaResponsavel
      match (if entradaStatus == "" then statusAtual else some entradaStatus) with
      | none => ⟨srv, regs2, [], cons1, some .atributoNulo⟩
      | some novoStatus =>
          let dataConclusao := calcularDataConclusao statusAtual novoStatus dataConclusaoAtual agora
          let comando := Comando.atualizar idTarefa novoTitulo novaDescricao
            novoResponsavel novoStatus dataConclusao
          let exec := bd.executar_comando srv comando none
          ⟨exec.2.1, regs2 ++ exec.2.2 ++ [⟨.info, "Tarefa atualizada com sucesso!"⟩],
            [comando], cons1, none⟩
  | _ => ⟨srv, regs2, [], cons1, some .fimDeEntrada⟩

/-- Step (d) of `atualizar_tarefa`: fetch the target's current five columns;
abort with an error log when nothing comes back, else continue with the
tuple's fields (this query only produces `campos` tuples, so the remaining
shapes are inert). -/
def atualizarEncontrada (bd : BancoDeDados) (srv : Servidor) (idTarefa : String)
    (resto : List String) (regs0 : List LogMsg) (cons0 : List Consulta)
    (agora : Nat) : Saida :=
  let busca := bd.buscar_dados srv (.selecionarCampos idTarefa) none
  let regs1 := regs0 ++ busca.2
  let cons1 := cons0 ++ [Consulta.selecionarCampos idTarefa]
  match busca.1 with
  | [] => ⟨srv, regs1 ++ [⟨.error, "Erro ao buscar dados da tarefa para atualização."⟩],
      [], cons1, none⟩
  | .campos tituloAtual descricaoAtual responsavelAtual statusAtual dataConclusaoAtual :: _ =>
      atualizarCampos bd srv idTarefa resto tituloAtual descricaoAtual responsavelAtual
        statusAtual dataConclusaoAtual
        (regs1 ++ [⟨.info, "\n--- Atualizando Tarefa ID: " ++ idTarefa ++ " ---"⟩,
                   ⟨.info, "Deixe em branco para manter o valor atual."⟩])
        cons1 agora
  | _ :: _ => ⟨srv, regs1, [], cons1, none⟩

/-- Body of `atualizar_tarefa` after the liveness guard passed: show the
list, fetch the IDs, abort when none, prompt for the target ID, abort with a
warning when it matches no fetched ID. -/
def atualizarComBanco (g : GerenciadorTarefas) (bd : BancoDeDados) (srv : Servidor)
    (entradas : List String) (agora : Nat) : Saida :=
  let exibir := g.exibir_tarefas srv
  let busca := bd.buscar_dados srv .selecionarIds none
  let regs0 := exibir.1 ++ busca.2
  let cons0 := exibir.2 ++ [Consulta.selecionarIds]
  if busca.1.isEmpty then
    ⟨srv, regs0 ++ [⟨.info, "Nenhuma tarefa cadastrada para atualizar."⟩], [], cons0, none⟩
  else
    match entradas with
    | [] => ⟨srv, regs0, [], cons0, some .fimDeEntrada⟩
    | idTarefa :: resto =>
        if busca.1.any (idCorresponde idTarefa) then
          atualizarEncontrada bd srv idTarefa resto regs0 cons0 agora
        else
          ⟨srv, regs0 ++ [⟨.warning, avisoNaoEncontrada idTarefa⟩], [], cons0, none⟩

/-- Manager method `atualizar_tarefa`, lines 187–253 of the source. -/
def GerenciadorTarefas.atualizar_tarefa (g : GerenciadorTarefas) (srv : Servidor)
    (entradas : List String) (agora : Nat) : Saida :=
  match g.bd with
  | none => ⟨srv, [⟨.error, msgGuardaAtualizar⟩], [], [], none⟩
  | some bd =>
      if bd.conexaoAtiva then atualizarComBanco g bd srv entradas agora
      else ⟨srv, [⟨.error, msgGuardaAtualizar⟩], [], [], none⟩

/-- Body of `excluir_tarefa` after the liveness guard passed. -/
def excluirComBanco (g : GerenciadorTarefas) (bd : BancoDeDados) (srv : Servidor)
    (entradas : List String) : Saida :=
  let exibir := g.exibir_tarefas srv
  let busca := bd.buscar_dados srv .selecionarIds none
  let regs0 := exibir.1 ++ busca.2
  let cons0 := exibir.2 ++ [Consulta.selecionarIds]
  if busca.1.isEmpty then
    ⟨srv, regs0 ++ [⟨.info, "Nenhuma tarefa cadastrada para excluir."⟩], [], cons0, none⟩
  else
    match entradas with
    | [] => ⟨srv, regs0, [], cons0, some .fimDeEntrada⟩
    | idTarefa :: _ =>
        if busca.1.any (idCorresponde idTarefa) then
          let comando := Comando.excluir idTarefa
          let exec := bd.executar_comando srv comando none
          ⟨exec.2.1, regs0 ++ exec.2.2 ++ [⟨.info, "Tarefa excluída com sucesso!"⟩],
            [comando], cons0, none⟩
        else
          ⟨srv, regs0 ++ [⟨.warning, avisoNaoEncontrada idTarefa⟩], [], cons0, none⟩

/-- Manager method `excluir_tarefa`, lines 255–281 of the source. -/
def GerenciadorTarefas.excluir_tarefa (g : GerenciadorTarefas) (srv : Servidor)
    (entradas : List String) : Saida :=
  match g.bd with
  | none => ⟨srv, [⟨.error, msgGuardaExcluir⟩], [], [], none⟩
  | some bd =>
      if bd.conexaoAtiva then excluirComBanco g bd srv entradas
      else ⟨srv, [⟨.error, msgGuardaExcluir⟩], [], [], none⟩

/-- Manager method `fechar_sistema`: close the gateway when present, then log shutdown. -/
def GerenciadorTarefas.fechar_sistema (g : GerenciadorTarefas) :
    GerenciadorTarefas × List LogMsg :=
  match g.bd with
  | some bd =>
      let f := bd.fechar_conexao
      (⟨some f.1⟩, f.2 ++ [⟨.info, "Sistema encerrado"⟩])
  | none => (⟨none⟩, [⟨.info, "Sistema encerrado"⟩])

/-- The four menu operations, dispatched uniformly. -/
inductive Operacao
  | cadastrar
  | exibir
  | atualizar
  | excluir
deriving DecidableEq

/-- One dispatch of the menu loop to a manager operation. -/
def GerenciadorTarefas.executarOperacao (g : GerenciadorTarefas) (op : Operacao)
    (srv : Servidor) (entradas : List String) (agora : Nat) : Saida :=
  match op with
  | .cadastrar => g.cadastrar_tarefa srv entradas agora
  | .exibir =>
      let e := g.exibir_tarefas srv
      ⟨srv, e.1, [], e.2, none⟩
  | .atualizar => g.atualizar_tarefa srv entradas agora
  | .excluir => g.excluir_tarefa srv entradas

/-- The guard-failure message of each operation. -/
def Operacao.mensagemGuarda : Operacao → String
  | .cadastrar => msgGuardaCadastrar
  | .exibir => msgGuardaExibir
  | .atualizar => msgGuardaAtualizar
  | .excluir => msgGuardaExcluir

/-- A ready gateway: live connection, open cursor. -/
def bdPronto : BancoDeDados := ⟨some ⟨true⟩, some ⟨true⟩⟩

/-- A manager holding the ready gateway. -/
def gPronto : GerenciadorTarefas := ⟨some bdPronto⟩

/-- A manager whose construction failed (`self.bd = None`). -/
def gDesligado : GerenciadorTarefas := ⟨none⟩

/-- A gateway whose connection object exists but is closed. -/
def bdFechado : BancoDeDados := ⟨some ⟨false⟩, none⟩

/-- The empty table. -/
def srvVazio : Servidor := ⟨[], 1⟩

/-- One pending example task. -/
def linhaExemplo : Linha :=
  ⟨1, "Tarefa de exemplo", some "desc", some "Ana", some "Pendente", some 5, none⟩

/-- A table holding just the pending example task. -/
def srvExemplo : Servidor := ⟨[linhaExemplo], 2⟩

/-- A row whose stored status is null (possible at the storage layer). -/
def linhaSemStatus : Linha :=
  ⟨1, "Tarefa sem status", none, none, none, some 1, none⟩

/-- A table holding just the null-status row. -/
def srvSemStatus : Servidor := ⟨[linhaSemStatus], 2⟩

/-- The frame property of the update operation (claim C7): every row keeps
its ID and its creation timestamp, and the run issues either no mutating
statement or exactly one update statement — one that binds only title,
description, owner, status and completion timestamp — keyed by the entered
ID string. -/
def QuadroAtualizar (srv : Servidor) (idTarefa : String) (s : Saida) : Prop :=
  s.servidor.tarefas.map Linha.id = srv.tarefas.map Linha.id
  ∧ s.servidor.tarefas.map Linha.data_criacao = srv.tarefas.map Linha.data_criacao
  ∧ (s.comandos = []
      ∨ ∃ t d r st dc, s.comandos = [Comando.atualizar idTarefa t d r st dc])

/-- The head of a filtered list is the first element satisfying the
predicate. -/
theorem cabecaFiltrar {α : Type} (p : α → Bool) (xs : List α) :
    (xs.filter p).head? = xs.find? p := by
  induction xs with
  | nil => rfl
  | cons x xs ih =>
      by_cases h : p x = true
      · simp [List.filter_cons, List.find?_cons, h]
      · simp only [Bool.not_eq_true] at h
        simp [List.filter_cons, List.find?_cons, h, ih]

/-- Membership form of the C2 invariant. -/
theorem invariante_mem (srv : Servidor) :
    srv.invariante = true ↔
      ∀ l ∈ srv.tarefas, l.data_conclusao.isSome = l.concluida := by
  simp [Servidor.invariante, List.all_eq_true]

/-- Messages at level info or debug fall below the configured WARNING
threshold. -/
theorem visivel_info_debug (m : LogMsg)
    (h : m.nivel = Nivel.info ∨ m.nivel = Nivel.debug) : m.visivel = false := by
  rcases h with h | h <;>
    simp [LogMsg.visivel, h, nivelConfigurado, Nivel.valor]

/-- Every message rendered for a fetched row by `exibir_tarefas` is at level
info. -/
theorem linhaParaRegistros_info (lr : LinhaResultado) (m : LogMsg)
    (hm : m ∈ linhaParaRegistros lr) : m.nivel = Nivel.info := by
  cases lr with
  | completa l =>
      simp [linhaParaRegistros] at hm
      rcases hm with h | h | h | h | h | h | h <;> subst h <;> rfl
  | soId i => simp [linhaParaRegistros] at hm
  | campos t d r s dc => simp [linhaParaRegistros] at hm

/-- C6: the gateway swallows backend errors without signalling the caller.
`executar_comando` returns `None` (nothing) on every path — liveness-guard
failure, backend error, and success alike — so its callers cannot
distinguish them by return value; `buscar_dados` returns the empty sequence
both when the connection is not live and when the query fails, and returns
all result tuples of the query, in storage order, otherwise. -/
theorem C6_gateway_engole_erros (bd : BancoDeDados) (srv : Servidor)
    (comando : Comando) (consulta : Consulta) (falha : Option String) :
    ((bd.executar_comando srv comando falha).1 = none)
    ∧ ((bd.conexaoAtiva = false ∨ bd.cursor = none ∨ falha.isSome = true) →
        (bd.buscar_dados srv consulta falha).1 = [])
    ∧ (bd.conexaoAtiva = true → bd.cursor.isNone = false →
        (bd.buscar_dados srv consulta none).1 = srv.consultar consulta) := by
  refine ⟨?_, ?_, ?_⟩
  · unfold BancoDeDados.executar_comando
    split
    · rfl
    · cases falha <;> rfl
  · intro h
    rcases h with h | h | h
    · simp [BancoDeDados.buscar_dados, h]
    · simp [BancoDeDados.buscar_dados, h]
    · cases falha with
      | none => simp at h
      | some e =>
          unfold BancoDeDados.buscar_dados
          split <;> rfl
  · intro h1 h2
    simp [BancoDeDados.buscar_dados, h1, h2]

/-- C6 witness: a failing fetch on the live gateway returns the empty list. -/
theorem C6_testemunha :
    (bdPronto.buscar_dados srvExemplo Consulta.selecionarTudo (some "erro")).1 = [] :=
  (C6_gateway_engole_erros bdPronto srvExemplo (Comando.excluir "1")
    Consulta.selecionarTudo (some "erro")).2.1 (Or.inr (Or.inr rfl))

/-- C8: `fechar_conexao` is idempotent and total.  When the connection is not
live (absent or already closed) it changes nothing, raises nothing and logs
the graceful "Nenhuma conexão ativa para fechar."; when it is live, it closes
the cursor (if present) and the connection; and a second close after any
close is the graceful no-op. -/
theorem C8_fechar_idempotente (bd : BancoDeDados) :
    (bd.conexaoAtiva = false →
      bd.fechar_conexao = (bd, [⟨Nivel.info, "Nenhuma conexão ativa para fechar."⟩]))
    ∧ (bd.conexaoAtiva = true →
      (bd.fechar_conexao.1.conexaoAtiva = false
        ∧ bd.fechar_conexao.1.cursor = bd.cursor.map (fun _ => ⟨false⟩)
        ∧ bd.fechar_conexao.2 = [⟨Nivel.info, "Conexão com o banco de dados fechada."⟩]))
    ∧ bd.fechar_conexao.1.fechar_conexao =
        (bd.fechar_conexao.1, [⟨Nivel.info, "Nenhuma conexão ativa para fechar."⟩]) := by
  obtain ⟨co, cu⟩ := bd
  cases co with
  | none =>
      exact ⟨fun _ => rfl, fun h => by simp [BancoDeDados.conexaoAtiva] at h, rfl⟩
  | some c =>
      obtain ⟨b⟩ := c
      cases b with
      | false =>
          exact ⟨fun _ => rfl, fun h => by simp [BancoDeDados.conexaoAtiva] at h, rfl⟩
      | true =>
          exact ⟨fun h => by simp [BancoDeDados.conexaoAtiva] at h,
            fun _ => ⟨rfl, rfl, rfl⟩, rfl⟩

/-- C8 witness: closing the already-closed gateway changes nothing and logs
the graceful outcome. -/
theorem C8_testemunha :
    bdFechado.fechar_conexao =
      (bdFechado, [⟨Nivel.info, "Nenhuma conexão ativa para fechar."⟩]) :=
  (C8_fechar_idempotente bdFechado).1 rfl

/-- C5: when the liveness check fails (no gateway object, null connection, or
a connection that does not report connected), each of the four operations
logs exactly one error-level message, issues no storage call at all — no
command, no query — raises nothing, and leaves the stored state unchanged. -/
theorem C5_guarda_inatividade (op : Operacao) (g : GerenciadorTarefas)
    (srv : Servidor) (entradas : List String) (agora : Nat)
    (h : g.is_bd_ready = false) :
    g.executarOperacao op srv entradas agora =
      ⟨srv, [⟨Nivel.error, op.mensagemGuarda⟩], [], [], none⟩ := by
  cases hg : g.bd with
  | none =>
      cases op <;>
        simp [GerenciadorTarefas.executarOperacao, GerenciadorTarefas.cadastrar_tarefa,
          GerenciadorTarefas.exibir_tarefas, GerenciadorTarefas.atualizar_tarefa,
          GerenciadorTarefas.excluir_tarefa, Operacao.mensagemGuarda, hg]
  | some bd =>
      have hc : bd.conexaoAtiva = false := by
        simpa [GerenciadorTarefas.is_bd_ready, hg] using h
      cases op <;>
        simp [GerenciadorTarefas.executarOperacao, GerenciadorTarefas.cadastrar_tarefa,
          GerenciadorTarefas.exibir_tarefas, GerenciadorTarefas.atualizar_tarefa,
          GerenciadorTarefas.excluir_tarefa, Operacao.mensagemGuarda, hg, hc]

/-- C5 witness: the update operation on the manager whose construction failed
is a pure no-op with one error log. -/
theorem C5_testemunha :
    gDesligado.executarOperacao Operacao.atualizar srvExemplo ["1"] 3 =
      ⟨srvExemplo, [⟨Nivel.error, Operacao.atualizar.mensagemGuarda⟩], [], [], none⟩ :=
  C5_guarda_inatividade Operacao.atualizar gDesligado srvExemplo ["1"] 3 rfl

/-- C10: the process-wide threshold is WARNING, so a message is visible iff
its level is warning, error or critical; with a ready gateway, every message
emitted by the List operation — the per-row blocks and the "no tasks"
signal — is at level info or debug and hence suppressed; and the success
confirmations of create, update and delete are info-level messages that the
threshold suppresses. -/
theorem C10_limiar_warning :
    (∀ m : LogMsg, m.visivel = true ↔
      (m.nivel = Nivel.warning ∨ m.nivel = Nivel.error ∨ m.nivel = Nivel.critical))
    ∧ (∀ (g : GerenciadorTarefas) (bd : BancoDeDados) (srv : Servidor),
        g.bd = some bd → bd.conexaoAtiva = true → bd.cursor.isNone = false →
        ∀ m ∈ (g.exibir_tarefas srv).1, m.visivel = false)
    ∧ ((gPronto.cadastrar_tarefa srvVazio ["Implementar módulo X", "desc", "Ana"] 7).registros.getLast?
        = some ⟨Nivel.info, "Tarefa cadastrada com sucesso!"⟩
      ∧ LogMsg.visivel ⟨Nivel.info, "Tarefa cadastrada com sucesso!"⟩ = false)
    ∧ ((gPronto.atualizar_tarefa srvExemplo ["1", "", "", "", ""] 9).registros.getLast?
        = some ⟨Nivel.info, "Tarefa atualizada com sucesso!"⟩
      ∧ LogMsg.visivel ⟨Nivel.info, "Tarefa atualizada com sucesso!"⟩ = false)
    ∧ ((gPronto.excluir_tarefa srvExemplo ["1"]).registros.getLast?
        = some ⟨Nivel.info, "Tarefa excluída com sucesso!"⟩
      ∧ LogMsg.visivel ⟨Nivel.info, "Tarefa excluída com sucesso!"⟩ = false) := by
  refine ⟨?_, ?_, ⟨?_, rfl⟩, ⟨?_, rfl⟩, ⟨?_, rfl⟩⟩
  · intro m
    obtain ⟨n, t⟩ := m
    cases n <;> simp [LogMsg.visivel, nivelConfigurado, Nivel.valor]
  · intro g bd srv hbd hconn hcur m hm
    apply visivel_info_debug
    have hred : (g.exibir_tarefas srv).1 =
        if (srv.consultar Consulta.selecionarTudo).isEmpty then
          [⟨Nivel.debug, "Dados buscados com sucesso"⟩,
           ⟨Nivel.info, "Nenhuma tarefa cadastrada."⟩]
        else
          ⟨Nivel.debug, "Dados buscados com sucesso"⟩ ::
            ⟨Nivel.info, "\n --- Lista de Tarefas ---"⟩ ::
              (srv.consultar Consulta.selecionarTudo).flatMap linhaParaRegistros := by
      simp [GerenciadorTarefas.exibir_tarefas, hbd, hconn,
        BancoDeDados.buscar_dados, hcur]
      split <;> rfl
    rw [hred] at hm
    by_cases he : (srv.consultar Consulta.selecionarTudo).isEmpty
    · rw [if_pos he] at hm
      simp at hm
      rcases hm with hm | hm <;> simp [hm]
    · rw [if_neg he] at hm
      simp at hm
      rcases hm with hm | hm | ⟨lr, _, hmlr⟩
      · simp [hm]
      · simp [hm]
      · exact Or.inl (linhaParaRegistros_info lr m hmlr)
  · rfl
  · rfl
  · rfl

/-- The title loop on a run of short titles followed by a long one: one
warning per short title, then the first ≥12-character title is accepted with
the remaining inputs untouched. -/
theorem lerTitulo_curtas (curtas : List String) (titulo : String)
    (resto : List String) (hcurtas : ∀ t ∈ curtas, t.length < 12)
    (ht : 12 ≤ titulo.length) :
    lerTitulo (curtas ++ titulo :: resto) =
      (curtas.map (fun _ => ⟨Nivel.warning, avisoTituloCurto⟩), some (titulo, resto)) := by
  induction curtas with
  | nil => simp [lerTitulo, ht]
  | cons c cs ih =>
      have hc : ¬ 12 ≤ c.length := by
        have := hcurtas c (List.mem_cons_self c cs)
        omega
      simp [lerTitulo, hc,
        ih (fun t htm => hcurtas t (List.mem_cons_of_mem c htm))]

/-- C3: with a ready gateway, the create operation inserts nothing while the
supplied title is shorter than 12 characters — it logs one warning per such
title and prompts again — and at the first title of length ≥ 12 it issues
exactly one insert whose bound row carries that title, the entered
description and owner, status `Pendente`, creation timestamp now, and a null
completion timestamp. -/
theorem C3_cadastrar_valida (g : GerenciadorTarefas) (bd : BancoDeDados)
    (srv : Servidor) (curtas : List String) (titulo descricao responsavel : String)
    (resto : List String) (agora : Nat) (hbd : g.bd = some bd)
    (hconn : bd.conexaoAtiva = true) (hcur : bd.cursor.isNone = false)
    (hcurtas : ∀ t ∈ curtas, t.length < 12) (ht : 12 ≤ titulo.length) :
    g.cadastrar_tarefa srv (curtas ++ titulo :: descricao :: responsavel :: resto) agora =
      ⟨srv.aplicar (Comando.inserir titulo descricao responsavel "Pendente" agora none),
        curtas.map (fun _ => ⟨Nivel.warning, avisoTituloCurto⟩)
          ++ [⟨Nivel.info, "Tarefa cadastrada com sucesso!"⟩],
        [Comando.inserir titulo descricao responsavel "Pendente" agora none],
        [], none⟩ := by
  simp [GerenciadorTarefas.cadastrar_tarefa, hbd, hconn, cadastrarComBanco,
    lerTitulo_curtas curtas titulo (descricao :: responsavel :: resto) hcurtas ht,
    BancoDeDados.executar_comando, hcur, Tarefa.init]

/-- C3 witness: one short title is warned about and re-prompted, then the
valid title is inserted as a pending task. -/
theorem C3_testemunha :
    gPronto.cadastrar_tarefa srvVazio
        (["curta"] ++ "Implementar módulo X" :: "desc" :: "Ana" :: []) 7 =
      ⟨srvVazio.aplicar (Comando.inserir "Implementar módulo X" "desc" "Ana" "Pendente" 7 none),
        (["curta"] : List String).map (fun _ => ⟨Nivel.warning, avisoTituloCurto⟩)
          ++ [⟨Nivel.info, "Tarefa cadastrada com sucesso!"⟩],
        [Comando.inserir "Implementar módulo X" "desc" "Ana" "Pendente" 7 none],
        [], none⟩ :=
  C3_cadastrar_valida gPronto bdPronto srvVazio ["curta"] "Implementar módulo X"
    "desc" "Ana" [] 7 rfl rfl rfl (by decide) (by decide)

/-- C4: with a ready gateway and a non-empty table, an Update or Delete whose
entered ID string equals no stringified fetched ID issues no mutating
statement at all, leaves the stored state unchanged, and logs a warning
naming the attempted ID. -/
theorem C4_id_inexistente (op : Operacao) (g : GerenciadorTarefas)
    (bd : BancoDeDados) (srv : Servidor) (idTarefa : String)
    (resto : List String) (agora : Nat)
    (hop : op = Operacao.atualizar ∨ op = Operacao.excluir)
    (hbd : g.bd = some bd) (hconn : bd.conexaoAtiva = true)
    (hcur : bd.cursor.isNone = false) (hne : srv.tarefas ≠ [])
    (hnf : ∀ l ∈ srv.tarefas, l.corresponde idTarefa = false) :
    (g.executarOperacao op srv (idTarefa :: resto) agora).servidor = srv
    ∧ (g.executarOperacao op srv (idTarefa :: resto) agora).comandos = []
    ∧ ⟨Nivel.warning, avisoNaoEncontrada idTarefa⟩ ∈
        (g.executarOperacao op srv (idTarefa :: resto) agora).registros := by
  have hids : (bd.buscar_dados srv Consulta.selecionarIds none).1 =
      srv.consultar Consulta.selecionarIds := by
    simp [BancoDeDados.buscar_dados, hconn, hcur]
  have hvazio : (srv.consultar Consulta.selecionarIds).isEmpty = false := by
    cases ht : srv.tarefas with
    | nil => exact absurd ht hne
    | cons a l => simp [Servidor.consultar, ht]
  have hany : (srv.consultar Consulta.selecionarIds).any (idCorresponde idTarefa) = false := by
    simp only [Servidor.consultar]
    refine List.any_eq_false.mpr ?_
    intro x hx
    obtain ⟨l, hl, rfl⟩ := List.mem_map.1 hx
    simpa [idCorresponde, Linha.corresponde] using hnf l hl
  rcases hop with hop | hop <;> subst hop <;>
    simp [GerenciadorTarefas.executarOperacao, GerenciadorTarefas.atualizar_tarefa,
      GerenciadorTarefas.excluir_tarefa, hbd, hconn, atualizarComBanco,
      excluirComBanco, hids, hvazio, hany]

/-- C4 witness: deleting the absent ID 7 from the one-task table mutates
nothing and logs the warning naming 7. -/
theorem C4_testemunha :
    (gPronto.executarOperacao Operacao.excluir srvExemplo ["7"] 0).servidor = srvExemplo
    ∧ (gPronto.executarOperacao Operacao.excluir srvExemplo ["7"] 0).comandos = []
    ∧ ⟨Nivel.warning, avisoNaoEncontrada "7"⟩ ∈
        (gPronto.executarOperacao Operacao.excluir srvExemplo ["7"] 0).registros :=
  C4_id_inexistente Operacao.excluir gPronto bdPronto srvExemplo "7" [] 0
    (Or.inr rfl) rfl rfl rfl (by decide) (by decide)

/-- With the gateway object present and its connection live, the update
operation runs its post-guard body. -/
theorem atualizar_pronto (g : GerenciadorTarefas) (bd : BancoDeDados)
    (srv : Servidor) (entradas : List String) (agora : Nat)
    (hbd : g.bd = some bd) (hconn : bd.conexaoAtiva = true) :
    g.atualizar_tarefa srv entradas agora = atualizarComBanco g bd srv entradas agora := by
  simp [GerenciadorTarefas.atualizar_tarefa, hbd, hconn]

/-- When some stored row matches the entered ID, the update flow passes the
found-check and proceeds to the current-field fetch. -/
theorem atualizarComBanco_encontrada (g : GerenciadorTarefas) (bd : BancoDeDados)
    (srv : Servidor) (idTarefa : String) (resto : List String) (agora : Nat)
    (l : Linha) (cauda : List Linha)
    (hconn : bd.conexaoAtiva = true) (hcur : bd.cursor.isNone = false)
    (hfiltro : srv.tarefas.filter (fun x => x.corresponde idTarefa) = l :: cauda) :
    atualizarComBanco g bd srv (idTarefa :: resto) agora =
      atualizarEncontrada bd srv idTarefa resto
        ((g.exibir_tarefas srv).1 ++ [⟨Nivel.debug, "Dados buscados com sucesso"⟩])
        ((g.exibir_tarefas srv).2 ++ [Consulta.selecionarIds]) agora := by
  have hl_filtro : l ∈ srv.tarefas.filter (fun x => x.corresponde idTarefa) :=
    hfiltro ▸ List.mem_cons_self l cauda
  have hl_mem : l ∈ srv.tarefas := List.mem_of_mem_filter hl_filtro
  have hl_p0 := List.of_mem_filter hl_filtro
  have hl_p : l.corresponde idTarefa = true := hl_p0
  have hne : srv.tarefas ≠ [] := List.ne_nil_of_mem hl_mem
  have hbusca : bd.buscar_dados srv Consulta.selecionarIds none =
      (srv.consultar Consulta.selecionarIds,
       [⟨Nivel.debug, "Dados buscados com sucesso"⟩]) := by
    simp [BancoDeDados.buscar_dados, hconn, hcur]
  have hvazio : (srv.consultar Consulta.selecionarIds).isEmpty = false := by
    cases ht : srv.tarefas with
    | nil => exact absurd ht hne
    | cons a t => simp [Servidor.consultar, ht]
  have hany : (srv.consultar Consulta.selecionarIds).any (idCorresponde idTarefa) = true := by
    simp only [Servidor.consultar]
    refine List.any_eq_true.mpr ?_
    refine ⟨.soId l.id, List.mem_map_of_mem _ hl_mem, ?_⟩
    simpa [idCorresponde, Linha.corresponde] using hl_p
  simp [atualizarComBanco, hbusca, hvazio, hany]

/-- The current-field fetch of the update flow returns the first stored row
matching the entered ID, whose five columns feed the prompts and the
transition rule. -/
theorem atualizarEncontrada_campos (bd : BancoDeDados) (srv : Servidor)
    (idTarefa : String) (resto : List String) (regs0 : List LogMsg)
    (cons0 : List Consulta) (agora : Nat) (l : Linha) (cauda : List Linha)
    (hconn : bd.conexaoAtiva = true) (hcur : bd.cursor.isNone = false)
    (hfiltro : srv.tarefas.filter (fun x => x.corresponde idTarefa) = l :: cauda) :
    atualizarEncontrada bd srv idTarefa resto regs0 cons0 agora =
      atualizarCampos bd srv idTarefa resto l.titulo l.descricao l.responsavel
        l.status l.data_conclusao
        (regs0 ++ [⟨Nivel.debug, "Dados buscados com sucesso"⟩]
          ++ [⟨Nivel.info, "\n--- Atualizando Tarefa ID: " ++ idTarefa ++ " ---"⟩,
              ⟨Nivel.info, "Deixe em branco para manter o valor atual."⟩])
        (cons0 ++ [Consulta.selecionarCampos idTarefa]) agora := by
  have hbusca : bd.buscar_dados srv (Consulta.selecionarCampos idTarefa) none =
      ((l :: cauda).map
        (fun x => .campos x.titulo x.descricao x.responsavel x.status x.data_conclusao),
       [⟨Nivel.debug, "Dados buscados com sucesso"⟩]) := by
    simp [BancoDeDados.buscar_dados, hconn, hcur, Servidor.consultar, hfiltro]
  simp [atualizarEncontrada, hbusca]

/-- When the four field inputs are supplied and the effective new status
resolves to an actual string, the update flow issues exactly its one update
statement. -/
theorem atualizarCampos_sucesso (bd : BancoDeDados) (srv : Servidor)
    (idTarefa eT eD eR eS : String) (resto : List String) (tA : String)
    (dA rA sA : Option String) (dcA : Option Nat) (regs2 : List LogMsg)
    (cons1 : List Consulta) (agora : Nat) (novoStatus : String)
    (hns : (if eS == "" then sA else some eS) = some novoStatus) :
    atualizarCampos bd srv idTarefa (eT :: eD :: eR :: eS :: resto)
        tA dA rA sA dcA regs2 cons1 agora =
      ⟨(bd.executar_comando srv (Comando.atualizar idTarefa
          (if eT == "" then tA else eT) (if eD == "" then dA else some eD)
          (if eR == "" then rA else some eR) novoStatus
          (calcularDataConclusao sA novoStatus dcA agora)) none).2.1,
        regs2 ++ (bd.executar_comando srv (Comando.atualizar idTarefa
          (if eT == "" then tA else eT) (if eD == "" then dA else some eD)
          (if eR == "" then rA else some eR) novoStatus
          (calcularDataConclusao sA novoStatus dcA agora)) none).2.2
          ++ [⟨Nivel.info, "Tarefa atualizada com sucesso!"⟩],
        [Comando.atualizar idTarefa (if eT == "" then tA else eT)
          (if eD == "" then dA else some eD) (if eR == "" then rA else some eR)
          novoStatus (calcularDataConclusao sA novoStatus dcA agora)],
        cons1, none⟩ := by
  simp only [atualizarCampos]
  rw [hns]

/-- When the stored status is null and the status input is empty, the
`.lower()` call hits `None` and the update aborts exceptionally before any
statement is issued. -/
theorem atualizarCampos_status_nulo (bd : BancoDeDados) (srv : Servidor)
    (idTarefa eT eD eR : String) (resto : List String) (tA : String)
    (dA rA : Option String) (dcA : Option Nat) (regs2 : List LogMsg)
    (cons1 : List Consulta) (agora : Nat) :
    atualizarCampos bd srv idTarefa (eT :: eD :: eR :: "" :: resto)
        tA dA rA none dcA regs2 cons1 agora =
      ⟨srv, regs2, [], cons1, some Excecao.atributoNulo⟩ := by
  simp [atualizarCampos]

/-- The source's completion-timestamp computation, expressed through the old
stored row: now on a transition into concluída, null on a transition out,
the previously stored value otherwise. -/
theorem calcularDataConclusao_regra (l : Linha) (ns : String) (agora : Nat) :
    calcularDataConclusao l.status ns l.data_conclusao agora =
      (if ehStringConcluida ns && !l.concluida then some agora
       else if !ehStringConcluida ns && l.concluida then none
       else l.data_conclusao) := by
  cases hs : l.status with
  | none =>
      cases hn : ehStringConcluida ns <;>
        simp [calcularDataConclusao, Linha.concluida, hs, hn]
  | some s =>
      cases hn : ehStringConcluida ns <;> cases hc : ehStringConcluida s <;>
        simp [calcularDataConclusao, Linha.concluida, hs, hn, hc]

/-- C1 counterexample: updating the pending example task while keeping every
field (all inputs empty, so the effective new status S2 is the old status S1
= `Pendente`) writes a null completion timestamp — visible as the bound
value of the one issued update statement — although the claim's condition
for writing null, "S2 is not concluída and S1 is", is false here.  The
claim's biconditional "equals null iff S2 is not concluída and S1 is"
therefore fails on this input. -/
theorem C1_contraexemplo :
    (gPronto.atualizar_tarefa srvExemplo ["1", "", "", "", ""] 100).comandos =
      [Comando.atualizar "1" "Tarefa de exemplo" (some "desc") (some "Ana")
        "Pendente" none]
    ∧ ¬(ehStringConcluida "Pendente" = false ∧ linhaExemplo.concluida = true) := by
  constructor
  · rfl
  · decide

/-- C1 (amended): for every update of an existing task through a ready
gateway — first matching stored row `l` (old status S1 = `l.status`, old
completion timestamp `l.data_conclusao`), effective new status S2 =
`novoStatus` (the entered status, or the stored one when the input is
empty) — the update statement written is unique and its bound completion
timestamp is: now, if S2 is concluída (case-insensitively) and S1 is not
(null S1 counting as not); null, if S2 is not concluída and S1 is;
otherwise the previously stored value unchanged.  (The original claim's
"iff" directions fail — see the counterexample — because the unchanged
prior value may itself be null.) -/
theorem C1_regra_transicao (g : GerenciadorTarefas) (bd : BancoDeDados)
    (srv : Servidor) (idTarefa eT eD eR eS : String) (resto : List String)
    (agora : Nat) (l : Linha) (cauda : List Linha) (novoStatus : String)
    (hbd : g.bd = some bd) (hconn : bd.conexaoAtiva = true)
    (hcur : bd.cursor.isNone = false)
    (hfiltro : srv.tarefas.filter (fun x => x.corresponde idTarefa) = l :: cauda)
    (hns : (if eS == "" then l.status else some eS) = some novoStatus) :
    (g.atualizar_tarefa srv (idTarefa :: eT :: eD :: eR :: eS :: resto) agora).comandos =
      [Comando.atualizar idTarefa (if eT == "" then l.titulo else eT)
        (if eD == "" then l.descricao else some eD)
        (if eR == "" then l.responsavel else some eR) novoStatus
        (if ehStringConcluida novoStatus && !l.concluida then some agora
         else if !ehStringConcluida novoStatus && l.concluida then none
         else l.data_conclusao)]
    ∧ (g.atualizar_tarefa srv (idTarefa :: eT :: eD :: eR :: eS :: resto) agora).excecao
        = none := by
  rw [atualizar_pronto g bd srv _ agora hbd hconn,
    atualizarComBanco_encontrada g bd srv idTarefa _ agora l cauda hconn hcur hfiltro,
    atualizarEncontrada_campos bd srv idTarefa _ _ _ agora l cauda hconn hcur hfiltro,
    atualizarCampos_sucesso bd srv idTarefa eT eD eR eS _ l.titulo l.descricao
      l.responsavel l.status l.data_conclusao _ _ agora novoStatus hns]
  exact ⟨by rw [calcularDataConclusao_regra], rfl⟩

/-- C1 witness: completing the pending example task stamps the update
statement with the current time. -/
theorem C1_testemunha :
    (gPronto.atualizar_tarefa srvExemplo ["1", "", "", "", "Concluída"] 100).comandos =
      [Comando.atualizar "1" "Tarefa de exemplo" (some "desc") (some "Ana")
        "Concluída" (some 100)]
    ∧ (gPronto.atualizar_tarefa srvExemplo ["1", "", "", "", "Concluída"] 100).excecao
        = none := by
  have h := C1_regra_transicao gPronto bdPronto srvExemplo "1" "" "" "" "Concluída"
    [] 100 linhaExemplo [] "Concluída" rfl rfl rfl (by decide) (by decide)
  simpa using h

/-- C9: when the stored status of the target task is null and the operator
submits an empty status input (meaning "keep current value"), the effective
new status is null, the case-insensitive comparison raises
(`AttributeError` on `None.lower()`), and the update terminates abnormally
without issuing any statement and with the stored state unchanged. -/
theorem C9_status_nulo (g : GerenciadorTarefas) (bd : BancoDeDados)
    (srv : Servidor) (idTarefa eT eD eR : String) (resto : List String)
    (agora : Nat) (l : Linha) (cauda : List Linha)
    (hbd : g.bd = some bd) (hconn : bd.conexaoAtiva = true)
    (hcur : bd.cursor.isNone = false)
    (hfiltro : srv.tarefas.filter (fun x => x.corresponde idTarefa) = l :: cauda)
    (hstatus : l.status = none) :
    (g.atualizar_tarefa srv (idTarefa :: eT :: eD :: eR :: "" :: resto) agora).excecao
        = some Excecao.atributoNulo
    ∧ (g.atualizar_tarefa srv (idTarefa :: eT :: eD :: eR :: "" :: resto) agora).comandos
        = []
    ∧ (g.atualizar_tarefa srv (idTarefa :: eT :: eD :: eR :: "" :: resto) agora).servidor
        = srv := by
  rw [atualizar_pronto g bd srv _ agora hbd hconn,
    atualizarComBanco_encontrada g bd srv idTarefa _ agora l cauda hconn hcur hfiltro,
    atualizarEncontrada_campos bd srv idTarefa _ _ _ agora l cauda hconn hcur hfiltro,
    hstatus,
    atualizarCampos_status_nulo bd srv idTarefa eT eD eR resto l.titulo
      l.descricao l.responsavel l.data_conclusao _ _ agora]
  exact ⟨rfl, rfl, rfl⟩

/-- C9 witness: the concrete null-status row with an empty status input
aborts the update exceptionally with no statement issued. -/
theorem C9_testemunha :
    (gPronto.atualizar_tarefa srvSemStatus ["1", "t", "d", "r", ""] 3).excecao
        = some Excecao.atributoNulo
    ∧ (gPronto.atualizar_tarefa srvSemStatus ["1", "t", "d", "r", ""] 3).comandos = []
    ∧ (gPronto.atualizar_tarefa srvSemStatus ["1", "t", "d", "r", ""] 3).servidor
        = srvSemStatus :=
  C9_status_nulo gPronto bdPronto srvSemStatus "1" "t" "d" "r" [] 3
    linhaSemStatus [] rfl rfl rfl (by decide) rfl

/-- Inserting a fresh task (status `Pendente`, null completion timestamp)
preserves the invariant. -/
theorem inv_aplicar_inserir (srv : Servidor) (t d r : String) (agora : Nat)
    (hinv : srv.invariante = true) :
    (srv.aplicar (Comando.inserir t d r "Pendente" agora none)).invariante = true := by
  rw [invariante_mem] at hinv ⊢
  intro l hl
  simp only [Servidor.aplicar, List.mem_append, List.mem_singleton] at hl
  rcases hl with hl | hl
  · exact hinv l hl
  · subst hl
    simp only [Linha.concluida]
    decide

/-- Deleting rows preserves the invariant. -/
theorem inv_aplicar_excluir (srv : Servidor) (idT : String)
    (hinv : srv.invariante = true) :
    (srv.aplicar (Comando.excluir idT)).invariante = true := by
  rw [invariante_mem] at hinv ⊢
  intro l hl
  exact hinv l (List.mem_of_mem_filter hl)

/-- An update whose bound completion timestamp is non-null exactly when its
bound status is concluída preserves the invariant (every matching row gets
that same status/timestamp pair; other rows are untouched). -/
theorem inv_aplicar_atualizar (srv : Servidor) (idT t : String)
    (d r : Option String) (st : String) (dc : Option Nat)
    (hdc : dc.isSome = ehStringConcluida st) (hinv : srv.invariante = true) :
    (srv.aplicar (Comando.atualizar idT t d r st dc)).invariante = true := by
  rw [invariante_mem] at hinv ⊢
  intro x hx
  simp only [Servidor.aplicar] at hx
  obtain ⟨l, hl, rfl⟩ := List.mem_map.1 hx
  cases h : l.corresponde idT with
  | false =>
      simp only [h, Bool.false_eq_true, if_false]
      exact hinv l hl
  | true =>
      simp only [h, if_true]
      simpa [Linha.concluida] using hdc

/-- The completion timestamp computed by the transition rule is non-null
exactly when the effective new status is concluída, provided the old pair
satisfied the invariant. -/
theorem calcular_isSome (sA : Option String) (ns : String) (dcA : Option Nat)
    (agora : Nat)
    (h : dcA.isSome = (match sA with
      | none => false
      | some s => ehStringConcluida s)) :
    (calcularDataConclusao sA ns dcA agora).isSome = ehStringConcluida ns := by
  cases sA with
  | none =>
      cases hn : ehStringConcluida ns
      · simp [calcularDataConclusao, hn]
        simpa using h
      · simp [calcularDataConclusao, hn]
  | some s =>
      cases hn : ehStringConcluida ns <;> cases hs : ehStringConcluida s <;>
        simp [calcularDataConclusao, hn, hs] <;> simpa [hs] using h

/-- The field-and-write phase of the update flow preserves the invariant
when the fetched status/timestamp pair satisfies it. -/
theorem inv_atualizarCampos (bd : BancoDeDados) (srv : Servidor) (idT : String)
    (resto : List String) (tA : String) (dA rA sA : Option String)
    (dcA : Option Nat) (regs : List LogMsg) (cons : List Consulta) (agora : Nat)
    (hinv : srv.invariante = true)
    (hdca : dcA.isSome = (match sA with
      | none => false
      | some s => ehStringConcluida s)) :
    (atualizarCampos bd srv idT resto tA dA rA sA dcA regs cons agora).servidor.invariante
      = true := by
  rcases resto with _ | ⟨a, _ | ⟨b, _ | ⟨c, _ | ⟨d, rest⟩⟩⟩⟩ <;>
    try simpa [atualizarCampos] using hinv
  cases hq : (if d == "" then sA else some d) with
  | none =>
      by_cases hd : d = ""
      · subst hd
        have hsA : sA = none := by simpa using hq
        subst hsA
        rw [atualizarCampos_status_nulo]
        exact hinv
      · simp [hd] at hq
  | some ns =>
      rw [atualizarCampos_sucesso bd srv idT a b c d rest tA dA rA sA dcA
        regs cons agora ns hq]
      show (bd.executar_comando srv _ none).2.1.invariante = true
      unfold BancoDeDados.executar_comando
      split
      · exact hinv
      · exact inv_aplicar_atualizar srv idT _ _ _ ns _
          (calcular_isSome sA ns dcA agora hdca) hinv

/-- The post-found phase of the update flow preserves the invariant: the
fetched five columns are those of a stored row, which satisfies it. -/
theorem inv_atualizarEncontrada (bd : BancoDeDados) (srv : Servidor)
    (idT : String) (resto : List String) (regs0 : List LogMsg)
    (cons0 : List Consulta) (agora : Nat) (hinv : srv.invariante = true) :
    (atualizarEncontrada bd srv idT resto regs0 cons0 agora).servidor.invariante
      = true := by
  cases hb : (bd.buscar_dados srv (Consulta.selecionarCampos idT) none).1 with
  | nil => simpa [atualizarEncontrada, hb] using hinv
  | cons pr rest =>
      cases pr with
      | completa l => simpa [atualizarEncontrada, hb] using hinv
      | soId i => simpa [atualizarEncontrada, hb] using hinv
      | campos tA dA rA sA dcA =>
          have hb2 := hb
          unfold BancoDeDados.buscar_dados at hb2
          by_cases hg : (!bd.conexaoAtiva || bd.cursor.isNone) = true
          · rw [if_pos hg] at hb2
            simp at hb2
          · rw [if_neg hg] at hb2
            simp only [Servidor.consultar] at hb2
            cases hf : srv.tarefas.filter (fun x => x.corresponde idT) with
            | nil =>
                rw [hf] at hb2
                simp at hb2
            | cons l0 lt =>
                rw [hf] at hb2
                simp only [List.map_cons, List.cons.injEq,
                  LinhaResultado.campos.injEq] at hb2
                obtain ⟨⟨_, _, _, hsA, hdcA⟩, _⟩ := hb2
                have hl0 : l0 ∈ srv.tarefas :=
                  List.mem_of_mem_filter (hf ▸ List.mem_cons_self l0 lt)
                simp only [atualizarEncontrada, hb]
                apply inv_atualizarCampos bd srv idT resto tA dA rA sA dcA _ _ agora hinv
                subst hsA
                subst hdcA
                simpa [Linha.concluida] using (invariante_mem srv).1 hinv l0 hl0

/-- The whole post-guard update body preserves the invariant. -/
theorem inv_atualizarComBanco (g : GerenciadorTarefas) (bd : BancoDeDados)
    (srv : Servidor) (entradas : List String) (agora : Nat)
    (hinv : srv.invariante = true) :
    (atualizarComBanco g bd srv entradas agora).servidor.invariante = true := by
  simp only [atualizarComBanco]
  split
  · exact hinv
  · cases entradas with
    | nil => exact hinv
    | cons idT resto =>
        simp only []
        split
        · exact inv_atualizarEncontrada bd srv idT resto _ _ agora hinv
        · exact hinv

/-- The post-guard create body preserves the invariant. -/
theorem inv_cadastrarComBanco (bd : BancoDeDados) (srv : Servidor)
    (entradas : List String) (agora : Nat) (hinv : srv.invariante = true) :
    (cadastrarComBanco bd srv entradas agora).servidor.invariante = true := by
  rcases hl : lerTitulo entradas with ⟨regs, o⟩
  cases o with
  | none => simpa [cadastrarComBanco, hl] using hinv
  | some pr =>
      obtain ⟨titulo, resto⟩ := pr
      rcases resto with _ | ⟨d, _ | ⟨r, rest⟩⟩
      · simpa [cadastrarComBanco, hl] using hinv
      · simpa [cadastrarComBanco, hl] using hinv
      · simp only [cadastrarComBanco, hl]
        show (bd.executar_comando srv _ none).2.1.invariante = true
        unfold BancoDeDados.executar_comando
        split
        · exact hinv
        · exact inv_aplicar_inserir srv titulo d r agora hinv

/-- The post-guard delete body preserves the invariant. -/
theorem inv_excluirComBanco (g : GerenciadorTarefas) (bd : BancoDeDados)
    (srv : Servidor) (entradas : List String) (hinv : srv.invariante = true) :
    (excluirComBanco g bd srv entradas).servidor.invariante = true := by
  simp only [excluirComBanco]
  split
  · exact hinv
  · cases entradas with
    | nil => exact hinv
    | cons idT resto =>
        simp only []
        split
        · show (bd.executar_comando srv _ none).2.1.invariante = true
          unfold BancoDeDados.executar_comando
          split
          · exact hinv
          · exact inv_aplicar_excluir srv idT hinv
        · exact hinv

/-- C2: the invariant "completion timestamp is non-null iff the current
status is Concluída" is preserved by every Task Manager operation — create,
list, update (via the transition rule), delete — starting from any server
state that satisfies it. -/
theorem C2_invariante_preservada (op : Operacao) (g : GerenciadorTarefas)
    (srv : Servidor) (entradas : List String) (agora : Nat)
    (hinv : srv.invariante = true) :
    (g.executarOperacao op srv entradas agora).servidor.invariante = true := by
  cases op with
  | cadastrar =>
      cases hg : g.bd with
      | none =>
          simpa [GerenciadorTarefas.executarOperacao,
            GerenciadorTarefas.cadastrar_tarefa, hg] using hinv
      | some bd =>
          simp only [GerenciadorTarefas.executarOperacao,
            GerenciadorTarefas.cadastrar_tarefa, hg]
          split
          · exact inv_cadastrarComBanco bd srv entradas agora hinv
          · exact hinv
  | exibir => simpa [GerenciadorTarefas.executarOperacao] using hinv
  | atualizar =>
      cases hg : g.bd with
      | none =>
          simpa [GerenciadorTarefas.executarOperacao,
            GerenciadorTarefas.atualizar_tarefa, hg] using hinv
      | some bd =>
          simp only [GerenciadorTarefas.executarOperacao,
            GerenciadorTarefas.atualizar_tarefa, hg]
          split
          · exact inv_atualizarComBanco g bd srv entradas agora hinv
          · exact hinv
  | excluir =>
      cases hg : g.bd with
      | none =>
          simpa [GerenciadorTarefas.executarOperacao,
            GerenciadorTarefas.excluir_tarefa, hg] using hinv
      | some bd =>
          simp only [GerenciadorTarefas.executarOperacao,
            GerenciadorTarefas.excluir_tarefa, hg]
          split
          · exact inv_excluirComBanco g bd srv entradas hinv
          · exact hinv

/-- C2 witness: completing the pending example task through the update flow
keeps the invariant. -/
theorem C2_testemunha :
    (gPronto.executarOperacao Operacao.atualizar srvExemplo
      ["1", "", "", "", "Concluída"] 100).servidor.invariante = true :=
  C2_invariante_preservada Operacao.atualizar gPronto srvExemplo
    ["1", "", "", "", "Concluída"] 100 (by decide)

/-- Applying an update statement changes neither the IDs nor the creation
timestamps of the stored rows. -/
theorem aplicar_atualizar_quadro (srv : Servidor) (idT t : String)
    (d r : Option String) (st : String) (dc : Option Nat) :
    ((srv.aplicar (Comando.atualizar idT t d r st dc)).tarefas.map Linha.id
      = srv.tarefas.map Linha.id)
    ∧ ((srv.aplicar (Comando.atualizar idT t d r st dc)).tarefas.map Linha.data_criacao
      = srv.tarefas.map Linha.data_criacao) := by
  constructor <;>
  · simp only [Servidor.aplicar, List.map_map]
    refine List.map_congr_left ?_
    intro l _
    cases h : l.corresponde idT <;> simp [h]

/-- The field-and-write phase satisfies the update frame property. -/
theorem quadro_atualizarCampos (bd : BancoDeDados) (srv : Servidor)
    (idT : String) (resto : List String) (tA : String)
    (dA rA sA : Option String) (dcA : Option Nat) (regs : List LogMsg)
    (cons : List Consulta) (agora : Nat) :
    QuadroAtualizar srv idT
      (atualizarCampos bd srv idT resto tA dA rA sA dcA regs cons agora) := by
  rcases resto with _ | ⟨a, _ | ⟨b, _ | ⟨c, _ | ⟨d, rest⟩⟩⟩⟩ <;>
    try (simp [atualizarCampos, QuadroAtualizar]; done)
  cases hq : (if d == "" then sA else some d) with
  | none =>
      by_cases hd : d = ""
      · subst hd
        have hsA : sA = none := by simpa using hq
        subst hsA
        rw [atualizarCampos_status_nulo]
        simp [QuadroAtualizar]
      · simp [hd] at hq
  | some ns =>
      rw [atualizarCampos_sucesso bd srv idT a b c d rest tA dA rA sA dcA
        regs cons agora ns hq]
      refine ⟨?_, ?_, Or.inr ⟨_, _, _, _, _, rfl⟩⟩
      · show ((bd.executar_comando srv _ none).2.1.tarefas.map Linha.id
          = srv.tarefas.map Linha.id)
        unfold BancoDeDados.executar_comando
        split
        · rfl
        · exact (aplicar_atualizar_quadro srv idT _ _ _ ns _).1
      · show ((bd.executar_comando srv _ none).2.1.tarefas.map Linha.data_criacao
          = srv.tarefas.map Linha.data_criacao)
        unfold BancoDeDados.executar_comando
        split
        · rfl
        · exact (aplicar_atualizar_quadro srv idT _ _ _ ns _).2

/-- The post-found phase satisfies the update frame property. -/
theorem quadro_atualizarEncontrada (bd : BancoDeDados) (srv : Servidor)
    (idT : String) (resto : List String) (regs0 : List LogMsg)
    (cons0 : List Consulta) (agora : Nat) :
    QuadroAtualizar srv idT (atualizarEncontrada bd srv idT resto regs0 cons0 agora) := by
  cases hb : (bd.buscar_dados srv (Consulta.selecionarCampos idT) none).1 with
  | nil => simp [atualizarEncontrada, hb, QuadroAtualizar]
  | cons pr rest =>
      cases pr with
      | completa l => simp [atualizarEncontrada, hb, QuadroAtualizar]
      | soId i => simp [atualizarEncontrada, hb, QuadroAtualizar]
      | campos tA dA rA sA dcA =>
          simp only [atualizarEncontrada, hb]
          exact quadro_atualizarCampos bd srv idT resto tA dA rA sA dcA _ _ agora

/-- The post-guard update body satisfies the update frame property for the
entered ID. -/
theorem quadro_atualizarComBanco (g : GerenciadorTarefas) (bd : BancoDeDados)
    (srv : Servidor) (entradas : List String) (agora : Nat) :
    QuadroAtualizar srv (entradas.headD "")
      (atualizarComBanco g bd srv entradas agora) := by
  simp only [atualizarComBanco]
  split
  · simp [QuadroAtualizar]
  · cases entradas with
    | nil => simp [QuadroAtualizar]
    | cons idT resto =>
        simp only [List.headD_cons]
        split
        · exact quadro_atualizarEncontrada bd srv idT resto _ _ agora
        · simp [QuadroAtualizar]

/-- C7: every run of the Update operation — aborted or completed — leaves
the ID and the creation timestamp of every stored row unchanged, and issues
either no mutating statement or exactly one update statement, keyed by the
entered ID, that binds only title, description, owner, status and
completion timestamp. -/
theorem C7_quadro_atualizacao (g : GerenciadorTarefas) (srv : Servidor)
    (entradas : List String) (agora : Nat) :
    QuadroAtualizar srv (entradas.headD "")
      (g.atualizar_tarefa srv entradas agora) := by
  cases hg : g.bd with
  | none =>
      simp [GerenciadorTarefas.atualizar_tarefa, hg, QuadroAtualizar]
  | some bd =>
      simp only [GerenciadorTarefas.atualizar_tarefa, hg]
      split
      · exact quadro_atualizarComBanco g bd srv entradas agora
      · simp [QuadroAtualizar]
